import Mathlib

/-!
Shallow embedding of the catalog add-on in `src/index.js` ("90s–2010s Movies",
a Stremio catalog add-on backed by TMDb), together with proofs about its
catalog-resolution behaviour.

JS conventions are embedded as follows: a field that may be `undefined`/absent
becomes an `Option`; JS truthiness tests on such fields are spelled out
(`some v` with `v` nonzero / nonempty); the async gateway `tmdb(path, params)`
that may throw becomes an oracle function returning `Except String _`; the
`try`/`catch` boundaries of the two handlers become total functions whose
error branches are explicit.  Each handler also records the upstream requests
it issues, so that "no upstream call is made" is a provable statement.
-/

namespace ClassicMovies

/-- One entry of the `genres` array of a `/movie/ID` response; the program
reads only its `name`. -/
structure GenreObj where
  name : String
deriving Repr, DecidableEq

/-- A raw TMDb movie record as consumed by this program (from a `results`
array of the discover/search endpoints, or the flat `/movie/ID` object).
Fields the program never reads are omitted; every field it reads may be
absent in the JSON, hence `Option`. Ratings are rationals (JS numbers such
as 7.3). -/
structure TmdbMovie where
  id : Option Nat
  title : Option String
  poster_path : Option String
  backdrop_path : Option String
  release_date : Option String
  overview : Option String
  vote_average : Option ℚ
  runtime : Option Nat
  genres : Option (List GenreObj)
deriving Repr, DecidableEq

/-- A `results`-array response of the discover or search endpoint
(`json.results` may be absent: the code guards with `json.results || []`). -/
structure ListResponse where
  results : Option (List TmdbMovie)
deriving Repr, DecidableEq

/-- One entry of the `/movie/ID/videos` response. -/
structure Video where
  type : String
  site : String
  key : String
  name : Option String
deriving Repr, DecidableEq

/-- The `/movie/ID/videos` response (`videos.results || []` in the code). -/
structure VideosResponse where
  results : Option (List Video)
deriving Repr, DecidableEq

/-- The normalized listing-row shape built by `toMetaPreview`. -/
structure MetaPreview where
  id : String
  type : String
  name : Option String
  poster : Option String
  background : Option String
  releaseInfo : String
  description : Option String
  imdbRating : Option String
deriving Repr, DecidableEq

/-- One trailer reference of a `MetaDetail`. -/
structure TrailerRef where
  source : String
  type : String
  name : Option String
  site : String
deriving Repr, DecidableEq

/-- The single-item shape built by the meta handler. Fields that are
`undefined` on the degraded path are `Option`s. -/
structure MetaDetail where
  id : String
  type : String
  name : Option String
  poster : Option String
  background : Option String
  description : Option String
  releaseInfo : Option String
  imdbRating : Option String
  runtime : Option String
  genres : Option (List String)
  trailers : Option (List TrailerRef)
deriving Repr, DecidableEq

/-- Model of `s.slice(0, n)`: the first `n` characters of `s`. Defined over
the character list so that it evaluates by kernel reduction; on the date
strings this program slices it agrees with JS slicing. -/
def strTake (s : String) (n : Nat) : String := ⟨s.data.take n⟩

/-- Model of `s.toLowerCase()`: lowercase each character (the genre
vocabulary is ASCII). Defined over the character list so that it evaluates
by kernel reduction. -/
def lowerString (s : String) : String := ⟨s.data.map Char.toLower⟩

/-- `IMG(path, size)`: builds an image URL from the fixed base, a size token
and the relative path; absent path yields absent URL. -/
def IMG (path : Option String) (size : String) : Option String :=
  path.map (fun p => "https://image.tmdb.org/t/p/" ++ size ++ p)

/-- Rendering of a JS number-or-undefined inside a template string
(`tmdb:` ++ this): `undefined` renders as the literal text "undefined". -/
def jsShow (n : Option Nat) : String :=
  match n with
  | some k => toString k
  | none => "undefined"

/-- Model of `Number(v).toFixed(1)` on a nonnegative rational: the digit
string of the integer nearest `v` in tenths, ties toward the larger
(ECMA toFixed picks the larger candidate on a tie). -/
def toFixed1Abs (v : ℚ) : String :=
  let n : ℤ := ⌊v * 10 + 1 / 2⌋
  toString (n / 10) ++ "." ++ toString (n % 10)

/-- Model of `Number(v).toFixed(1)`: negative values format their absolute
value behind a minus sign. -/
def toFixed1 (v : ℚ) : String :=
  if v < 0 then "-" ++ toFixed1Abs (-v) else toFixed1Abs v

/-- The rating expression shared verbatim by both handlers:
`m.vote_average ? Number(m.vote_average).toFixed(1) : undefined`.
A missing `vote_average` and a zero one are both falsy, hence both yield
`undefined`. -/
def jsRating (v : Option ℚ) : Option String :=
  match v with
  | some x => if x = 0 then none else some (toFixed1 x)
  | none => none

/-- `toMetaPreview(m)`: TMDb record to Stremio meta preview.
`releaseInfo` is `(m.release_date || "").slice(0, 4)`. -/
def toMetaPreview (m : TmdbMovie) : MetaPreview :=
  { id := "tmdb:" ++ jsShow m.id
    type := "movie"
    name := m.title
    poster := IMG m.poster_path "w500"
    background := IMG m.backdrop_path "w780"
    releaseInfo := strTake (m.release_date.getD "") 4
    description := m.overview
    imdbRating := jsRating m.vote_average }

/-- The TMDb genre-id table of `mapGenreToId` (movies). -/
def genreIds : List (String × Nat) :=
  [("action", 28), ("adventure", 12), ("animation", 16), ("comedy", 35),
   ("crime", 80), ("documentary", 99), ("drama", 18), ("family", 10751),
   ("fantasy", 14), ("history", 36), ("horror", 27), ("music", 10402),
   ("mystery", 9648), ("romance", 10749), ("science fiction", 878),
   ("thriller", 53), ("war", 10752), ("western", 37), ("tv movie", 10770)]

/-- `mapGenreToId(name)`: lowercase lookup in the fixed table; the code's
trailing `|| undefined` turns a (nonexistent) zero entry into `undefined`,
so the model drops a zero hit as well. -/
def mapGenreToId (name : String) : Option Nat :=
  match genreIds.lookup (lowerString name) with
  | some n => if n = 0 then none else some n
  | none => none

/-- An inclusive calendar-date window of one catalog. -/
structure DateRange where
  gte : String
  lte : String
deriving Repr, DecidableEq

/-- The catalog-id to date-range table of the catalog handler. -/
def ranges (id : String) : Option DateRange :=
  if id = "nineties" then some ⟨"1990-01-01", "1999-12-31"⟩
  else if id = "two_thousands" then some ⟨"2000-01-01", "2010-12-31"⟩
  else none

/-- `Math.min(Number(extra?.limit) || 50, 100)`: an absent limit is `NaN`
and a zero limit is falsy, so both default to 50 before the clamp to 100.
(Stremio supplies `skip`/`limit` as nonnegative integers, so the model
carries them as `Option Nat` after the `Number(...)` coercion.) -/
def effLimit (olimit : Option Nat) : Nat :=
  min (match olimit with
       | none => 50
       | some n => if n = 0 then 50 else n) 100

/-- `Number(extra?.skip) || 0`. -/
def effSkip (oskip : Option Nat) : Nat := oskip.getD 0

/-- The caller-supplied `extra` object of a catalog request. -/
structure Extra where
  search : Option String
  skip : Option Nat
  limit : Option Nat
  genre : Option String
  sort : Option String
deriving Repr, DecidableEq

/-- `page = Math.floor(skip / limit) + 1` (Nat division is floor division;
`effLimit` is always positive). -/
def pageOf (extra : Extra) : Nat := effSkip extra.skip / effLimit extra.limit + 1

/-- `sortMap[extra?.sort] || "popularity.desc"`. -/
def sortKeyOf (osort : Option String) : String :=
  match osort with
  | some s =>
    if s = "popularity" then "popularity.desc"
    else if s = "rating" then "vote_average.desc"
    else if s = "release" then "primary_release_date.desc"
    else "popularity.desc"
  | none => "popularity.desc"

/-- `extra?.genre ? mapGenreToId(extra.genre) : undefined`: an absent or
empty genre string is falsy, so no lookup happens. -/
def genreIdOf (ogenre : Option String) : Option Nat :=
  match ogenre with
  | some g => if g = "" then none else mapGenreToId g
  | none => none

/-- The query of the `/discover/movie` request. The JS object also carries
`with_original_language: undefined`, which the gateway drops before sending,
so it has no counterpart here; `with_genres` is set only when the mapped
genre id is truthy (`if (genreId) params.with_genres = String(genreId)`). -/
structure DiscoverParams where
  include_adult : Bool
  language : String
  sort_by : String
  page : Nat
  primaryReleaseDateGte : String
  primaryReleaseDateLte : String
  with_genres : Option String
deriving Repr, DecidableEq

/-- The query of the `/search/movie` request. -/
structure SearchParams where
  query : String
  page : Nat
  include_adult : Bool
  language : String
deriving Repr, DecidableEq

/-- The upstream requests the catalog handler can issue. -/
inductive UpstreamReq where
  | discover (p : DiscoverParams)
  | search (p : SearchParams)
deriving Repr, DecidableEq

/-- The discover-branch params object, as built in the handler body. -/
def discoverParamsOf (range : DateRange) (extra : Extra) : DiscoverParams :=
  { include_adult := false
    language := "en-US"
    sort_by := sortKeyOf extra.sort
    page := pageOf extra
    primaryReleaseDateGte := range.gte
    primaryReleaseDateLte := range.lte
    with_genres := (genreIdOf extra.genre).map toString }

/-- The search-branch params object, as built in the handler body. -/
def searchParamsOf (extra : Extra) : SearchParams :=
  { query := extra.search.getD ""
    page := pageOf extra
    include_adult := false
    language := "en-US" }

/-- Truthiness of `extra?.search`: present and nonempty. -/
def searchTruthy (osearch : Option String) : Bool :=
  match osearch with
  | some s => s ≠ ""
  | none => false

/-- Decimal value of a digit list, most significant first (the accumulator
form of `Number(...)` on an all-digit string). -/
def natOfDigits : List Char → Nat → Nat
  | [], acc => acc
  | c :: cs, acc => natOfDigits cs (acc * 10 + (c.toNat - 48))

/-- Model of the JS coercion `Number(s)` on the strings this program feeds
it (4-character date prefixes): an all-digit string parses to its value, the
empty string parses to 0, anything else is `NaN`, modelled as `none`.
Signs, interior whitespace, fraction or exponent forms cannot arise from a
4-character prefix of a date the program compares against a year window, so
they are collapsed into the `NaN` case. -/
def jsNumber (s : String) : Option Nat :=
  if s = "" then some 0
  else if s.data.all Char.isDigit then some (natOfDigits s.data 0) else none

/-- `Number(range.gte.slice(0, 4))` on the table's range bounds. -/
def rangeYear (s : String) : Nat := (jsNumber (strTake s 4)).getD 0

/-- The search-branch post-fetch filter predicate: parse the year from the
first four characters of `release_date`, discard on `!y` (NaN or 0), keep
when the year lies inside the window's years. -/
def keepYear (range : DateRange) (m : TmdbMovie) : Bool :=
  match jsNumber (strTake (m.release_date.getD "") 4) with
  | none => false
  | some y =>
    if y = 0 then false
    else decide (rangeYear range.gte ≤ y) && decide (y ≤ rangeYear range.lte)

/-- The `{ metas }` object a catalog request resolves to. -/
structure CatalogResponse where
  metas : List MetaPreview
deriving Repr, DecidableEq

/-- A catalog request's result together with the upstream requests issued
while handling it. -/
structure CatalogOutcome where
  response : CatalogResponse
  calls : List UpstreamReq
deriving Repr, DecidableEq

/-- The catalog handler (`builder.defineCatalogHandler`). `gw` is the
`tmdb` gateway: it either returns the parsed JSON of the one request the
handler issues or throws (`Except.error`); the handler's `try`/`catch`
converts any throw into an empty listing. -/
def catalogHandler (ty id : String) (extra : Extra)
    (gw : UpstreamReq → Except String ListResponse) : CatalogOutcome :=
  if ty = "movie" then
    match ranges id with
    | none => ⟨⟨[]⟩, []⟩
    | some range =>
      let req : UpstreamReq :=
        if searchTruthy extra.search then .search (searchParamsOf extra)
        else .discover (discoverParamsOf range extra)
      match gw req with
      | .error _ => ⟨⟨[]⟩, [req]⟩
      | .ok json =>
        let results := json.results.getD []
        let survivors :=
          if searchTruthy extra.search then results.filter (keepYear range)
          else results
        ⟨⟨survivors.map toMetaPreview⟩, [req]⟩
  else ⟨⟨[]⟩, []⟩

/-- `id.startsWith("tmdb:") ? id.split(":")[1] : id`. -/
def stripId (id : String) : String :=
  if id.startsWith "tmdb:" then (id.splitOn ":").getD 1 "" else id

/-- The `{ meta }` object a meta request resolves to. -/
structure MetaOutcome where
  meta : MetaDetail
deriving Repr, DecidableEq

/-- The minimal degraded detail built in the meta handler's `catch`:
`{ id, type: "movie", name: "Unavailable" }` with every other field
`undefined`. -/
def degradedDetail (id : String) : MetaDetail :=
  { id := id
    type := "movie"
    name := some "Unavailable"
    poster := none
    background := none
    description := none
    releaseInfo := none
    imdbRating := none
    runtime := none
    genres := none
    trailers := none }

/-- The success-path `meta` object of the meta handler, from the fetched
movie record and the trailer found (if any). -/
def buildDetail (movie : TmdbMovie) (trailer : Option Video) : MetaDetail :=
  { id := "tmdb:" ++ jsShow movie.id
    type := "movie"
    name := movie.title
    poster := IMG movie.poster_path "w500"
    background := IMG movie.backdrop_path "w780"
    description := movie.overview
    releaseInfo := some (strTake (movie.release_date.getD "") 4)
    imdbRating := jsRating movie.vote_average
    runtime :=
      match movie.runtime with
      | some r => if r = 0 then none else some (toString r ++ " min")
      | none => none
    genres := some ((movie.genres.getD []).map GenreObj.name)
    trailers :=
      trailer.map (fun t => [{ source := t.key
                               type := "Trailer"
                               name := t.name
                               site := "YouTube" }]) }

/-- The meta handler (`builder.defineMetaHandler`). `gwMovie` and `gwVideos`
are the `tmdb` gateway at the `/movie/ID` and `/movie/ID/videos` endpoints;
each may throw (`Except.error`). A videos failure is pre-caught with
`.catch(() => ({ results: [] }))`; any other failure falls to the handler's
`catch`, which returns the degraded detail under the original request id. -/
def metaHandler (id : String)
    (gwMovie : String → Except String TmdbMovie)
    (gwVideos : String → Except String VideosResponse) : MetaOutcome :=
  let tmdbId := stripId id
  match gwMovie tmdbId with
  | .error _ => ⟨degradedDetail id⟩
  | .ok movie =>
    let videos : VideosResponse :=
      match gwVideos tmdbId with
      | .error _ => ⟨some []⟩
      | .ok v => v
    let trailer :=
      (videos.results.getD []).find? (fun v => v.type == "Trailer" && v.site == "YouTube")
    ⟨buildDetail movie trailer⟩

/-! ### Bulk-prefetch listing variant

The spec (§4.2) describes two coexisting listing variants. `src/index.js`
implements only the live-paginated one (`catalogHandler` above); the
bulk-prefetch variant has no implementation under `src/`, so it is modelled
from the spec below. -/

/-- Modelled from the spec: the bulk-prefetch variant's page-fetch loop,
missing from `src/` — "fetch a fixed number of upstream pages …; stop early
if any fetched page returns zero records …; concatenate all fetched
records". `pages` abstracts the upstream discovery endpoint, giving the raw
records of each upstream page number; `p` is the next page to fetch and
`fuel` the number of pages still allowed. -/
def bulkCollect (pages : Nat → List TmdbMovie) : Nat → Nat → List TmdbMovie
  | _, 0 => []
  | p, fuel + 1 =>
    match pages p with
    | [] => []
    | batch => batch ++ bulkCollect pages (p + 1) fuel

/-- Modelled from the spec: the bulk-prefetch variant's fixed page budget
("a constant, e.g. up to 10"). -/
def BULK_MAX_PAGES : Nat := 10

/-- Modelled from the spec: the ordering key of the final global re-sort —
"absent ratings are treated as numeric zero". -/
def ratingOrZero (m : TmdbMovie) : ℚ := m.vote_average.getD 0

/-- Modelled from the spec: the rating-descending comparison of the final
re-sort (`a` may come before `b` when `a`'s rating is at least `b`'s). -/
def ratingGe (a b : TmdbMovie) : Bool := decide (ratingOrZero b ≤ ratingOrZero a)

/-- Modelled from the spec: the merged multi-page record set, globally
re-sorted by rating descending ("concatenate all fetched records, then
re-sort the full merged set by rating descending"). -/
def bulkMerged (pages : Nat → List TmdbMovie) : List TmdbMovie :=
  (bulkCollect pages 1 BULK_MAX_PAGES).mergeSort ratingGe

/-- Modelled from the spec: the bulk-prefetch listing — the full merged,
re-sorted set mapped to previews and returned as one batch. -/
def bulkPrefetchListing (pages : Nat → List TmdbMovie) : List MetaPreview :=
  (bulkMerged pages).map toMetaPreview

/-! ### Concrete fixtures used by witnesses and counterexamples -/

/-- An `extra` object with every field absent. -/
def extraNone : Extra := ⟨none, none, none, none, none⟩

/-- A rated record (vote_average 8). -/
def ratedRecord : TmdbMovie :=
  ⟨some 1, some "A", none, none, some "1994-01-01", none, some 8, none, none⟩

/-- A record the upstream never rated. -/
def unratedRecord : TmdbMovie :=
  ⟨some 2, some "B", none, none, some "1996-01-01", none, none, none, none⟩

/-- A record rated exactly 0. -/
def zeroRatedRecord : TmdbMovie :=
  ⟨some 3, some "Z", none, none, some "1997-01-01", none, some 0, none, none⟩

/-- A record with no title. -/
def titlelessRecord : TmdbMovie :=
  ⟨some 101, none, none, none, some "1995-06-01", none, some 7, none, none⟩

/-- A page oracle serving the same two records on every page. -/
def constPages : Nat → List TmdbMovie := fun _ => [unratedRecord, ratedRecord]

/-! ### Theorems -/

/-- C1: in the live-paginated listing mode the upstream page number is
computed from the caller's cursor as `page = floor(skip / limit) + 1`, with
`limit` defaulting to 50 when absent and clamped to a maximum of 100, and
`skip` defaulting to 0; both the discover request and the search request
carry this page; `skip=0,limit=50` yields page 1, `skip=50,limit=50` page 2,
and `skip=120,limit=40` page 4. -/
theorem upstream_page_conversion :
    (∀ extra : Extra, pageOf extra = effSkip extra.skip / effLimit extra.limit + 1) ∧
    (∀ range extra, (discoverParamsOf range extra).page = pageOf extra) ∧
    (∀ extra, (searchParamsOf extra).page = pageOf extra) ∧
    effLimit none = 50 ∧ effSkip none = 0 ∧
    (∀ o, effLimit o ≤ 100) ∧
    pageOf ⟨none, some 0, some 50, none, none⟩ = 1 ∧
    pageOf ⟨none, some 50, some 50, none, none⟩ = 2 ∧
    pageOf ⟨none, some 120, some 40, none, none⟩ = 4 := by
  refine ⟨fun _ => rfl, fun _ _ => rfl, fun _ => rfl, rfl, rfl, ?_, by decide, by decide,
    by decide⟩
  intro o
  exact Nat.min_le_right _ 100

/-- C8: a listing request whose catalog identifier is not one of the fixed
known identifiers resolves to an empty listing, not an error, and issues no
upstream call. -/
theorem unknown_catalog_empty_listing (ty id : String) (extra : Extra)
    (gw : UpstreamReq → Except String ListResponse) (h : ranges id = none) :
    catalogHandler ty id extra gw = ⟨⟨[]⟩, []⟩ := by
  unfold catalogHandler
  by_cases hty : ty = "movie"
  · simp [hty, h]
  · simp [hty]

/-- Witness for C8 at the concrete unknown identifier "classics". -/
theorem unknown_catalog_empty_listing_witness :
    catalogHandler "movie" "classics" extraNone (fun _ => Except.ok ⟨some [ratedRecord]⟩)
      = ⟨⟨[]⟩, []⟩ :=
  unknown_catalog_empty_listing "movie" "classics" extraNone _ (by decide)

/-- C5: the listing operation never raises: whatever the request, when the
gateway fails (for any reason, including an upstream non-2xx error) the
handler resolves to an empty listing rather than propagating the fault. -/
theorem listing_never_raises (ty id : String) (extra : Extra)
    (gw : UpstreamReq → Except String ListResponse)
    (hfail : ∀ r, ∃ e, gw r = Except.error e) :
    (catalogHandler ty id extra gw).response = ⟨[]⟩ := by
  unfold catalogHandler
  by_cases hty : ty = "movie"
  · cases hr : ranges id with
    | none => simp [hty, hr]
    | some range =>
      simp only [hty, if_true, hr]
      obtain ⟨e, he⟩ := hfail
        (if searchTruthy extra.search then .search (searchParamsOf extra)
         else .discover (discoverParamsOf range extra))
      simp [he]
  · simp [hty]

/-- Witness for C5: a gateway that always throws yields the empty listing. -/
theorem listing_never_raises_witness :
    (catalogHandler "movie" "nineties" extraNone (fun _ => Except.error "TMDb 500")).response
      = ⟨[]⟩ :=
  listing_never_raises "movie" "nineties" extraNone _ (fun _ => ⟨"TMDb 500", rfl⟩)

/-- C6: any failure of the primary fetch in the detail flow (upstream error,
malformed identifier resolving to a failing fetch, network error) is caught:
the handler returns the structurally valid degraded detail carrying exactly
the original request identifier and the sentinel name "Unavailable". -/
theorem detail_failure_degrades (id e : String)
    (gwMovie : String → Except String TmdbMovie)
    (gwVideos : String → Except String VideosResponse)
    (hfail : gwMovie (stripId id) = Except.error e) :
    metaHandler id gwMovie gwVideos = ⟨degradedDetail id⟩ ∧
    (degradedDetail id).id = id ∧
    (degradedDetail id).name = some "Unavailable" := by
  refine ⟨?_, rfl, rfl⟩
  unfold metaHandler
  simp [hfail]

/-- Witness for C6 at a concrete failing fetch. -/
theorem detail_failure_degrades_witness :
    metaHandler "tmdb:42" (fun _ => Except.error "TMDb 404") (fun _ => Except.ok ⟨some []⟩)
      = ⟨degradedDetail "tmdb:42"⟩ ∧
    (degradedDetail "tmdb:42").id = "tmdb:42" ∧
    (degradedDetail "tmdb:42").name = some "Unavailable" :=
  detail_failure_degrades "tmdb:42" "TMDb 404" _ _ rfl

/-- C7: a listing request carrying a genre label whose (case-insensitive)
lookup succeeds puts the corresponding upstream numeric genre identifier
into the discover query's `with_genres`; a label outside the table leaves
the genre filter out of the query entirely, and the request still resolves
normally (on gateway success the listing is the mapped results). In
particular "horror" maps to 27 and "noir" maps to nothing. -/
theorem genre_label_mapping (id : String) (range : DateRange) (extra : Extra) (g : String)
    (gw : UpstreamReq → Except String ListResponse)
    (hr : ranges id = some range) (hg : extra.genre = some g) (hgne : g ≠ "")
    (hns : searchTruthy extra.search = false) :
    (catalogHandler "movie" id extra gw).calls
      = [UpstreamReq.discover (discoverParamsOf range extra)] ∧
    (discoverParamsOf range extra).with_genres = (mapGenreToId g).map toString ∧
    (∀ resp, gw (UpstreamReq.discover (discoverParamsOf range extra)) = Except.ok resp →
      (catalogHandler "movie" id extra gw).response.metas
        = (resp.results.getD []).map toMetaPreview) ∧
    mapGenreToId "horror" = some 27 ∧ mapGenreToId "noir" = none := by
  refine ⟨?_, ?_, ?_, by decide, by decide⟩
  · cases hgw : gw (UpstreamReq.discover (discoverParamsOf range extra)) with
    | error e => simp [catalogHandler, hr, hns, hgw]
    | ok resp => simp [catalogHandler, hr, hns, hgw]
  · simp [discoverParamsOf, genreIdOf, hg, hgne]
  · intro resp hok
    simp [catalogHandler, hr, hns, hok]

/-- Witness for C7 at the concrete unmapped label "noir" on the 2000s
catalog. -/
theorem genre_label_mapping_witness :
    ((catalogHandler "movie" "two_thousands"
        ⟨none, none, none, some "noir", none⟩ (fun _ => Except.ok ⟨some []⟩)).calls
      = [UpstreamReq.discover
          (discoverParamsOf ⟨"2000-01-01", "2010-12-31"⟩
            ⟨none, none, none, some "noir", none⟩)] ∧
    (discoverParamsOf ⟨"2000-01-01", "2010-12-31"⟩
        ⟨none, none, none, some "noir", none⟩).with_genres
      = (mapGenreToId "noir").map toString ∧
    (∀ resp, (fun _ => Except.ok ⟨some []⟩ : UpstreamReq → Except String ListResponse)
        (UpstreamReq.discover
          (discoverParamsOf ⟨"2000-01-01", "2010-12-31"⟩
            ⟨none, none, none, some "noir", none⟩)) = Except.ok resp →
      (catalogHandler "movie" "two_thousands"
          ⟨none, none, none, some "noir", none⟩
          (fun _ => Except.ok ⟨some []⟩)).response.metas
        = (resp.results.getD []).map toMetaPreview) ∧
    mapGenreToId "horror" = some 27 ∧ mapGenreToId "noir" = none) :=
  genre_label_mapping "two_thousands" ⟨"2000-01-01", "2010-12-31"⟩
    ⟨none, none, none, some "noir", none⟩ "noir" (fun _ => Except.ok ⟨some []⟩)
    (by decide) rfl (by decide) rfl

/-- C9: when a listing request carries a non-empty search string, the genre
label and the sort preference have no effect: two requests equal except in
genre and sort, with the same non-empty search string and the same cursor,
produce the same upstream call and the same listing. -/
theorem search_ignores_genre_and_sort (ty id : String) (e1 e2 : Extra)
    (gw : UpstreamReq → Except String ListResponse)
    (hs : e1.search = e2.search) (ht : searchTruthy e1.search = true)
    (hskip : e1.skip = e2.skip) (hlimit : e1.limit = e2.limit) :
    catalogHandler ty id e1 gw = catalogHandler ty id e2 gw := by
  have ht2 : searchTruthy e2.search = true := hs ▸ ht
  have hp : searchParamsOf e1 = searchParamsOf e2 := by
    simp [searchParamsOf, pageOf, effSkip, effLimit, hs, hskip, hlimit]
  unfold catalogHandler
  by_cases hty : ty = "movie"
  · cases hr : ranges id with
    | none => simp [hty, hr]
    | some range => simp [hty, hr, ht, ht2, hp]
  · simp [hty]

/-- Witness for C9: same search, different genre and sort, same outcome. -/
theorem search_ignores_genre_and_sort_witness :
    catalogHandler "movie" "nineties"
        ⟨some "alien", some 0, none, some "horror", some "rating"⟩
        (fun _ => Except.ok ⟨some [ratedRecord]⟩)
      = catalogHandler "movie" "nineties"
        ⟨some "alien", some 0, none, some "noir", none⟩
        (fun _ => Except.ok ⟨some [ratedRecord]⟩) :=
  search_ignores_genre_and_sort "movie" "nineties"
    ⟨some "alien", some 0, none, some "horror", some "rating"⟩
    ⟨some "alien", some 0, none, some "noir", none⟩
    (fun _ => Except.ok ⟨some [ratedRecord]⟩) rfl (by decide) rfl rfl

/-- Helper: every record collected by the bulk-prefetch page loop comes
from some upstream page. -/
theorem mem_bulkCollect {pages : Nat → List TmdbMovie} {m : TmdbMovie} :
    ∀ {p fuel : Nat}, m ∈ bulkCollect pages p fuel → ∃ q, m ∈ pages q := by
  intro p fuel
  induction fuel generalizing p with
  | zero => intro h; simp [bulkCollect] at h
  | succ k ih =>
    intro h
    rw [bulkCollect] at h
    cases hb : pages p with
    | nil => rw [hb] at h; simp at h
    | cons a t =>
      rw [hb] at h
      rcases List.mem_append.mp h with hm | hm
      · exact ⟨p, hb ▸ hm⟩
      · exact ih hm

/-- C2: every listing of the bulk-prefetch variant is sorted by rating in
monotonically non-increasing order (the merged multi-page set is globally
re-sorted by rating descending), a missing rating counting as zero; hence,
ratings being nonnegative, an unrated item is never followed by a rated
one. -/
theorem bulk_listing_rating_sorted (pages : Nat → List TmdbMovie)
    (hnn : ∀ p, ∀ m ∈ pages p, 0 ≤ ratingOrZero m) :
    (bulkMerged pages).Pairwise (fun a b => ratingOrZero b ≤ ratingOrZero a) ∧
    (bulkMerged pages).Pairwise (fun a b => ratingOrZero a = 0 → ratingOrZero b = 0) ∧
    bulkPrefetchListing pages = (bulkMerged pages).map toMetaPreview := by
  have htrans : ∀ a b c : TmdbMovie, ratingGe a b → ratingGe b c → ratingGe a c := by
    intro a b c hab hbc
    simp only [ratingGe, decide_eq_true_eq] at hab hbc ⊢
    exact le_trans hbc hab
  have htotal : ∀ a b : TmdbMovie, ratingGe a b || ratingGe b a := by
    intro a b
    simp only [ratingGe, Bool.or_eq_true, decide_eq_true_eq]
    exact le_total (ratingOrZero b) (ratingOrZero a)
  have hsorted := List.sorted_mergeSort htrans htotal (bulkCollect pages 1 BULK_MAX_PAGES)
  have h1 : (bulkMerged pages).Pairwise (fun a b => ratingOrZero b ≤ ratingOrZero a) := by
    unfold bulkMerged
    refine hsorted.imp ?_
    intro a b h
    simpa [ratingGe] using h
  refine ⟨h1, ?_, rfl⟩
  refine List.Pairwise.imp_of_mem ?_ h1
  intro a b _ hb hle h0
  obtain ⟨q, hq⟩ := mem_bulkCollect (List.mem_mergeSort.mp hb)
  exact le_antisymm (h0 ▸ hle) (hnn q b hq)

/-- Witness for C2 on a concrete page oracle serving an unrated and a rated
record on every page. -/
theorem bulk_listing_rating_sorted_witness :
    (bulkMerged constPages).Pairwise (fun a b => ratingOrZero b ≤ ratingOrZero a) ∧
    (bulkMerged constPages).Pairwise (fun a b => ratingOrZero a = 0 → ratingOrZero b = 0) ∧
    bulkPrefetchListing constPages = (bulkMerged constPages).map toMetaPreview :=
  bulk_listing_rating_sorted constPages (fun p => by
    show ∀ m ∈ [unratedRecord, ratedRecord], 0 ≤ ratingOrZero m
    decide)

/-- C10: in both the preview and the detail normalization the rating field
is the shared expression `jsRating` of the upstream `vote_average`; it is
present exactly when `vote_average` is a present nonzero number, and a
record rated exactly 0 normalizes identically to the same record with no
rating at all. -/
theorem rating_present_iff_nonzero :
    (∀ m : TmdbMovie, (toMetaPreview m).imdbRating = jsRating m.vote_average) ∧
    (∀ m trailer, (buildDetail m trailer).imdbRating = jsRating m.vote_average) ∧
    (∀ v : Option ℚ, (jsRating v).isSome ↔ ∃ x, v = some x ∧ x ≠ 0) ∧
    (∀ m : TmdbMovie, m.vote_average = some 0 →
      toMetaPreview m = toMetaPreview { m with vote_average := none } ∧
      ∀ trailer, buildDetail m trailer = buildDetail { m with vote_average := none } trailer) := by
  refine ⟨fun _ => rfl, fun _ _ => rfl, ?_, ?_⟩
  · intro v
    cases v with
    | none => simp [jsRating]
    | some x =>
      by_cases hx : x = 0
      · simp [jsRating, hx]
      · simp [jsRating, hx]
  · intro m hm
    constructor
    · simp [toMetaPreview, jsRating, hm]
    · intro t
      simp [buildDetail, jsRating, hm]

/-- Witness for C10: the concrete zero-rated record normalizes identically
to its unrated twin. -/
theorem rating_present_iff_nonzero_witness :
    toMetaPreview zeroRatedRecord
      = toMetaPreview { zeroRatedRecord with vote_average := none } :=
  (rating_present_iff_nonzero.2.2.2 zeroRatedRecord (by decide)).1

/-- C3 counterexample: a discover listing over a record with no title still
emits a preview for it (with an absent name); records are not screened for
a title before being mapped into the output. -/
theorem titleless_record_emitted :
    (catalogHandler "movie" "nineties" extraNone
        (fun _ => Except.ok ⟨some [titlelessRecord]⟩)).response.metas
      = [toMetaPreview titlelessRecord] ∧
    titlelessRecord.title = none ∧
    (toMetaPreview titlelessRecord).name = none := by
  refine ⟨?_, rfl, rfl⟩
  simp [catalogHandler, ranges, extraNone, searchTruthy]

/-- C3 (amended): the code applies no title screen: in the discover branch
every upstream record is mapped into the listing output whether or not it
has a title, and in both normalizations the emitted name field is exactly
the record's (possibly absent) title. -/
theorem records_mapped_regardless_of_title (id : String) (range : DateRange)
    (extra : Extra) (gw : UpstreamReq → Except String ListResponse) (resp : ListResponse)
    (hr : ranges id = some range) (hns : searchTruthy extra.search = false)
    (hok : gw (UpstreamReq.discover (discoverParamsOf range extra)) = Except.ok resp) :
    (catalogHandler "movie" id extra gw).response.metas
      = (resp.results.getD []).map toMetaPreview ∧
    (∀ m, (toMetaPreview m).name = m.title) ∧
    (∀ m trailer, (buildDetail m trailer).name = m.title) := by
  refine ⟨?_, fun _ => rfl, fun _ _ => rfl⟩
  simp [catalogHandler, hr, hns, hok]

/-- Witness for C3's amended statement at the concrete titleless record. -/
theorem records_mapped_regardless_of_title_witness :
    (catalogHandler "movie" "two_thousands" extraNone
        (fun _ => Except.ok ⟨some [titlelessRecord, ratedRecord]⟩)).response.metas
      = ((some [titlelessRecord, ratedRecord] : Option (List TmdbMovie)).getD []).map
          toMetaPreview ∧
    (∀ m, (toMetaPreview m).name = m.title) ∧
    (∀ m trailer, (buildDetail m trailer).name = m.title) :=
  records_mapped_regardless_of_title "two_thousands" ⟨"2000-01-01", "2010-12-31"⟩
    extraNone (fun _ => Except.ok ⟨some [titlelessRecord, ratedRecord]⟩)
    ⟨some [titlelessRecord, ratedRecord]⟩ (by decide) (by decide) rfl

/-- C4: a free-text search listing on a known catalog applies the post-fetch
year filter: the output is exactly the fetched results surviving `keepYear`,
every emitted item's release year — parsed from the first four characters
of its release date, which is the preview's `releaseInfo` — lies inside the
catalog window's years (inclusive), and a fetched record whose year prefix
is unparseable (NaN) or parses to 0 (in particular a missing release date)
never survives the filter. -/
theorem search_year_filter_window (id : String) (range : DateRange) (extra : Extra)
    (gw : UpstreamReq → Except String ListResponse) (resp : ListResponse)
    (hr : ranges id = some range) (hs : searchTruthy extra.search = true)
    (hok : gw (UpstreamReq.search (searchParamsOf extra)) = Except.ok resp) :
    (catalogHandler "movie" id extra gw).response.metas
      = ((resp.results.getD []).filter (keepYear range)).map toMetaPreview ∧
    (∀ mp ∈ (catalogHandler "movie" id extra gw).response.metas,
      ∃ y, jsNumber mp.releaseInfo = some y ∧ y ≠ 0 ∧
        rangeYear range.gte ≤ y ∧ y ≤ rangeYear range.lte) ∧
    (∀ m ∈ resp.results.getD [],
      (jsNumber (strTake (m.release_date.getD "") 4) = none ∨
       jsNumber (strTake (m.release_date.getD "") 4) = some 0) →
      m ∉ (resp.results.getD []).filter (keepYear range)) := by
  have hmain : (catalogHandler "movie" id extra gw).response.metas
      = ((resp.results.getD []).filter (keepYear range)).map toMetaPreview := by
    simp [catalogHandler, hr, hs, hok]
  refine ⟨hmain, ?_, ?_⟩
  · intro mp hmp
    rw [hmain] at hmp
    obtain ⟨m, hm, rfl⟩ := List.mem_map.mp hmp
    have hk : keepYear range m = true := (List.mem_filter.mp hm).2
    unfold keepYear at hk
    cases hy : jsNumber (strTake (m.release_date.getD "") 4) with
    | none => rw [hy] at hk; exact absurd hk (by simp)
    | some y =>
      rw [hy] at hk
      have hk2 : (if y = 0 then false
          else decide (rangeYear range.gte ≤ y) && decide (y ≤ rangeYear range.lte))
          = true := hk
      by_cases h0 : y = 0
      · rw [if_pos h0] at hk2; exact absurd hk2 (by simp)
      · rw [if_neg h0] at hk2
        simp only [Bool.and_eq_true, decide_eq_true_eq] at hk2
        exact ⟨y, by simpa [toMetaPreview] using hy, h0, hk2.1, hk2.2⟩
  · intro m _ hbad hmem
    have hk : keepYear range m = true := (List.mem_filter.mp hmem).2
    unfold keepYear at hk
    rcases hbad with hb | hb <;> rw [hb] at hk <;> simp at hk

/-- Witness for C4: a concrete search on the 1990s catalog keeps the
in-window record and discards the out-of-window and dateless ones. -/
theorem search_year_filter_window_witness :
    ((catalogHandler "movie" "nineties" ⟨some "story", none, none, none, none⟩
        (fun _ => Except.ok ⟨some [ratedRecord, titlelessRecord]⟩)).response.metas
      = (((⟨some [ratedRecord, titlelessRecord]⟩ : ListResponse).results.getD []).filter
          (keepYear ⟨"1990-01-01", "1999-12-31"⟩)).map toMetaPreview ∧
    (∀ mp ∈ (catalogHandler "movie" "nineties" ⟨some "story", none, none, none, none⟩
        (fun _ => Except.ok ⟨some [ratedRecord, titlelessRecord]⟩)).response.metas,
      ∃ y, jsNumber mp.releaseInfo = some y ∧ y ≠ 0 ∧
        rangeYear (⟨"1990-01-01", "1999-12-31"⟩ : DateRange).gte ≤ y ∧
        y ≤ rangeYear (⟨"1990-01-01", "1999-12-31"⟩ : DateRange).lte) ∧
    (∀ m ∈ (⟨some [ratedRecord, titlelessRecord]⟩ : ListResponse).results.getD [],
      (jsNumber (strTake (m.release_date.getD "") 4) = none ∨
       jsNumber (strTake (m.release_date.getD "") 4) = some 0) →
      m ∉ ((⟨some [ratedRecord, titlelessRecord]⟩ : ListResponse).results.getD []).filter
          (keepYear ⟨"1990-01-01", "1999-12-31"⟩))) :=
  search_year_filter_window "nineties" ⟨"1990-01-01", "1999-12-31"⟩
    ⟨some "story", none, none, none, none⟩
    (fun _ => Except.ok ⟨some [ratedRecord, titlelessRecord]⟩)
    ⟨some [ratedRecord, titlelessRecord]⟩ (by decide) (by decide) rfl

end ClassicMovies
